import Mathlib

/-!
Verification of the BPol boolean-operation reference (Martinez-Rueda-Feito sweep).
The available sources are the header booleanop.h, which fixes the enums, the
SweepEvent record and its inline member functions, and the CLI driver main.cpp.
The bodies of the sweep core (booleanop.cpp) and the polygon container (polygon.h)
are not among the sources, so those parts are modelled from the specification, as
marked on each definition.
-/

namespace Bop

/-- Boolean operation selector, booleanop.h line 19. -/
inductive BooleanOpType where
  | INTERSECTION
  | UNION
  | DIFFERENCE
  | XOR
deriving DecidableEq

/-- Edge classification, booleanop.h line 20. -/
inductive EdgeType where
  | NORMAL
  | NON_CONTRIBUTING
  | SAME_TRANSITION
  | DIFFERENT_TRANSITION
deriving DecidableEq

/-- Which input polygon a segment belongs to, booleanop.h line 21. -/
inductive PolygonType where
  | SUBJECT
  | CLIPPING
deriving DecidableEq

open BooleanOpType EdgeType PolygonType

/-- Exact 2-D point, spec section 3: an exact coordinate pair with exact equality. -/
structure Point_2 where
  x : Int
  y : Int
deriving DecidableEq

/-- Modelled from the spec: polygon.h is not among the sources. A contour is a closed
vertex sequence carrying an orientation flag and, after assembly, a possibly null
parent index and a list of child indices (spec section 3). -/
structure Contour where
  points : List Point_2
  ccw : Bool
  parent : Option Nat
  children : List Nat
deriving DecidableEq

/-- Modelled from the spec: polygon.h is not among the sources. A polygon is an
ordered sequence of contours (spec section 3). -/
abbrev Polygon := List Contour

/-- Axis-aligned bounding box with finite bounds. -/
structure Bbox where
  xmin : Int
  xmax : Int
  ymin : Int
  ymax : Int
deriving DecidableEq

/-- Modelled from the spec: the bounding box of a polygon is the union of the boxes of
all its points (spec section 3); none models the CGAL inverted empty box of a polygon
with no points. -/
def polygonBbox (P : Polygon) : Option Bbox :=
  (List.flatten (P.map Contour.points)).foldl
    (fun acc p =>
      match acc with
      | none => some ⟨p.x, p.x, p.y, p.y⟩
      | some b => some ⟨min b.xmin p.x, max b.xmax p.x, min b.ymin p.y, max b.ymax p.y⟩)
    none

/-- Modelled from the spec: CGAL do_overlap on two bounding boxes; boxes overlap when
their x ranges and y ranges both intersect, and an empty box overlaps nothing. -/
def doOverlap (a b : Option Bbox) : Bool :=
  match a, b with
  | some a, some b =>
      decide (a.xmin ≤ b.xmax ∧ b.xmin ≤ a.xmax ∧ a.ymin ≤ b.ymax ∧ b.ymin ≤ a.ymax)
  | _, _ => false

/-- Modelled from the spec: BooleanOpImp::trivialOperation, declared at booleanop.h
line 102 with its body in the absent booleanop.cpp. Spec section 4.1: if either input
is empty, UNION and XOR return the non-empty one, DIFFERENCE returns the subject and
INTERSECTION returns empty; if the bounding boxes are disjoint, UNION and XOR return
the concatenation of the two polygons, DIFFERENCE returns the subject and INTERSECTION
returns empty. Returns none when no short circuit applies. -/
def trivialOperation (subj clip : Polygon) (op : BooleanOpType) : Option Polygon :=
  if subj = [] ∨ clip = [] then
    some (match op with
      | INTERSECTION => []
      | DIFFERENCE => subj
      | UNION => if subj = [] then clip else subj
      | XOR => if subj = [] then clip else subj)
  else if doOverlap (polygonBbox subj) (polygonBbox clip) = false then
    some (match op with
      | INTERSECTION => []
      | DIFFERENCE => subj
      | UNION => subj ++ clip
      | XOR => subj ++ clip)
  else
    none

/-- Modelled from the spec: compute, booleanop.h lines 131 to 135, builds a
BooleanOpImp and calls run, whose body in booleanop.cpp is absent. The section 4.1
trivial short circuits are modelled; the value none stands for the outcome of the full
sweep, which the available sources do not determine. -/
def compute (subj clip : Polygon) (op : BooleanOpType) : Option Polygon :=
  trivialOperation subj clip op

/-- Sweep event record, booleanop.h lines 28 to 58, flattened for the embedding: the
otherEvent pointer is replaced by the opposite endpoint of the segment, and the
prevInResult pointer by an optional arena index (spec section 9 recommends referring
to events by stable index). -/
structure SweepEvt where
  left : Bool
  point : Point_2
  otherPoint : Point_2
  pol : PolygonType
  type : EdgeType
  inOut : Bool
  otherInOut : Bool
  prevInResult : Option Nat
  inResultFlag : Bool
deriving DecidableEq

/-- Vertical test, booleanop.h line 54: the segment is vertical iff both endpoints
share their x coordinate. -/
def vertical (e : SweepEvt) : Bool := decide (e.point.x = e.otherPoint.x)

/-- Twice the signed area of the triangle a b c: positive iff c lies strictly to the
left of the directed line from a to b. -/
def signedArea (a b c : Point_2) : Int :=
  (b.x - a.x) * (c.y - a.y) - (b.y - a.y) * (c.x - a.x)

/-- Below test, booleanop.h line 50: the segment of e is below point p iff p is on the
positive side of the oriented line from e.point to e.otherPoint. -/
def below (e : SweepEvt) (p : Point_2) : Bool :=
  decide (0 < signedArea e.point e.otherPoint p)

/-- Modelled from the spec: BooleanOpImp::inResult, declared at booleanop.h line 112
with its body in the absent booleanop.cpp. The section 4.6 membership table deciding
from the edge kind and the otherInOut flag. -/
def inResult (e : SweepEvt) (op : BooleanOpType) : Bool :=
  match e.type with
  | NORMAL =>
      match op with
      | INTERSECTION => !e.otherInOut
      | UNION => e.otherInOut
      | DIFFERENCE => decide (e.pol = SUBJECT) == e.otherInOut
      | XOR => true
  | SAME_TRANSITION => decide (op = INTERSECTION) || decide (op = UNION)
  | DIFFERENT_TRANSITION => decide (op = DIFFERENCE)
  | NON_CONTRIBUTING => false

/-- Modelled from the spec: BooleanOpImp::computeFields, declared at booleanop.h lines
113 to 114 with its body in the absent booleanop.cpp. The predecessor of the event in
the status structure is passed as an optional pair of its arena index and its record;
the section 4.6 rules set inOut, otherInOut, prevInResult and the stored result flag. -/
def computeFields (e : SweepEvt) (prev : Option (Nat × SweepEvt)) (op : BooleanOpType) :
    SweepEvt :=
  let e1 :=
    match prev with
    | none => { e with inOut := false, otherInOut := true }
    | some (_, p) =>
        if p.pol = e.pol then
          { e with inOut := !p.inOut, otherInOut := p.otherInOut }
        else
          { e with inOut := !p.otherInOut,
                   otherInOut := if vertical p then !p.inOut else p.inOut }
  let pir : Option Nat :=
    match prev with
    | none => none
    | some (i, p) =>
        if inResult p op = true ∧ vertical p = false then some i else p.prevInResult
  let e2 := { e1 with prevInResult := pir }
  { e2 with inResultFlag := inResult e2 op }

/-- Modelled from the spec: the SweepEventComp priority, declared at booleanop.h lines
60 to 62 with its body in the absent booleanop.cpp, phrased as the processed-before
relation of section 4.3: lexicographic point order on x then y, at equal points right
endpoints before left endpoints, then the event whose segment lies below the other
just to the right of the shared point, then CLIPPING before SUBJECT. -/
def sweepEventBefore (a b : SweepEvt) : Bool :=
  if a.point.x ≠ b.point.x then decide (a.point.x < b.point.x)
  else if a.point.y ≠ b.point.y then decide (a.point.y < b.point.y)
  else if a.left ≠ b.left then !a.left
  else if signedArea a.point a.otherPoint b.otherPoint ≠ 0 then below a b.otherPoint
  else decide (a.pol = CLIPPING) && decide (b.pol = SUBJECT)

/-- First character of an argument as read by the expression argv[i][0] in main.cpp:
the null character for an empty argument. -/
def argFirstChar (s : String) : Char := s.toList.headD (Char.ofNat 0)

/-- The accepted operation letters: the string ope of main.cpp line 18. -/
def opeChars : List Char := ['I', 'U', 'D', 'X']

/-- Outcome of one run of the reference CLI driver: the process exit code, and the
operation passed to bop::compute when the run reaches it. -/
structure CLIResult where
  exitCode : Nat
  ranOp : Option BooleanOpType
deriving DecidableEq

/-- The reference CLI driver, main.cpp lines 11 to 52. args models argv[1..]; the
oracle opens models Polygon::open, whose source is absent: whether the named file
exists and parses. fatalError with code 1 when argc < 3; code 2 when argv[3] exists
and its first character is not in IUDX; code 3 when either polygon file fails to open;
otherwise the switch on argv[3][0] selects the operation, INTERSECTION by default, and
the driver computes it and returns 0. -/
def mainDriver (args : List String) (opens : String → Bool) : CLIResult :=
  if args.length < 2 then ⟨1, none⟩
  else if 2 < args.length ∧ argFirstChar (args.getD 2 "") ∉ opeChars then ⟨2, none⟩
  else if opens (args.getD 0 "") = false then ⟨3, none⟩
  else if opens (args.getD 1 "") = false then ⟨3, none⟩
  else
    let op :=
      if 2 < args.length then
        match argFirstChar (args.getD 2 "") with
        | 'U' => UNION
        | 'D' => DIFFERENCE
        | 'X' => XOR
        | _ => INTERSECTION
      else INTERSECTION
    ⟨0, some op⟩

/-- Subject square used in concrete instances: the unit square at the origin. -/
def sq1 : Polygon := [⟨[⟨0, 0⟩, ⟨1, 0⟩, ⟨1, 1⟩, ⟨0, 1⟩], true, none, []⟩]

/-- Clipping square used in concrete instances: the unit square at (10, 10), disjoint
from sq1. -/
def sq2 : Polygon := [⟨[⟨10, 10⟩, ⟨11, 10⟩, ⟨11, 11⟩, ⟨10, 11⟩], true, none, []⟩]

/-- Two exact points are equal iff both coordinates agree. -/
theorem point_eq_iff (p q : Point_2) : p = q ↔ p.x = q.x ∧ p.y = q.y := by
  cases p; cases q; simp

/-- Bounding box overlap is symmetric. -/
theorem doOverlap_comm (a b : Option Bbox) : doOverlap a b = doOverlap b a := by
  cases a <;> cases b <;> try rfl
  simp only [doOverlap, decide_eq_decide]; tauto

/-- C5: the processed-before relation of the event queue holds iff the first point is
lexicographically smaller on x then y; at equal points a right event precedes a left
event; at equal flags the event whose segment lies below the other just to the right
of the shared point precedes; and with collinear segments the final tie break puts
CLIPPING events before SUBJECT events. -/
theorem sweepEventBefore_characterization (a b : SweepEvt) :
    sweepEventBefore a b = true ↔
      (a.point.x < b.point.x ∨ (a.point.x = b.point.x ∧ a.point.y < b.point.y)) ∨
      (a.point = b.point ∧ a.left = false ∧ b.left = true) ∨
      (a.point = b.point ∧ a.left = b.left ∧ below a b.otherPoint = true) ∨
      (a.point = b.point ∧ a.left = b.left ∧
        signedArea a.point a.otherPoint b.otherPoint = 0 ∧
        a.pol = CLIPPING ∧ b.pol = SUBJECT) := by
  unfold sweepEventBefore
  split_ifs with h1 h2 h3 h4
  · simp only [decide_eq_true_eq, point_eq_iff]
    constructor
    · intro h; exact Or.inl (Or.inl h)
    · rintro ((h | ⟨hx, _⟩) | ⟨⟨hx, _⟩, _⟩ | ⟨⟨hx, _⟩, _⟩ | ⟨⟨hx, _⟩, _⟩) <;>
        first | exact h | exact absurd hx h1
  · rw [not_ne_iff] at h1
    simp only [decide_eq_true_eq, point_eq_iff]
    constructor
    · intro h; exact Or.inl (Or.inr ⟨h1, h⟩)
    · rintro ((h | ⟨_, hy⟩) | ⟨⟨_, hy⟩, _⟩ | ⟨⟨_, hy⟩, _⟩ | ⟨⟨_, hy⟩, _⟩) <;>
        omega
  · rw [not_ne_iff] at h1 h2
    have hp : a.point = b.point := (point_eq_iff a.point b.point).mpr ⟨h1, h2⟩
    cases ha : a.left <;> cases hb : b.left <;> simp_all
  · rw [not_ne_iff] at h1 h2 h3
    have hp : a.point = b.point := (point_eq_iff a.point b.point).mpr ⟨h1, h2⟩
    simp_all [below]
  · rw [not_ne_iff] at h1 h2 h3 h4
    have hp : a.point = b.point := (point_eq_iff a.point b.point).mpr ⟨h1, h2⟩
    simp_all [below, h4]

/-- C1: with an empty clipping polygon compute returns the empty polygon for
INTERSECTION and the subject for UNION, DIFFERENCE and XOR; with an empty subject,
UNION and XOR return the clipping polygon, DIFFERENCE returns the empty subject and
INTERSECTION returns the empty polygon. -/
theorem compute_empty_input (S : Polygon) :
    compute S [] INTERSECTION = some [] ∧
    compute S [] UNION = some S ∧
    compute S [] DIFFERENCE = some S ∧
    compute S [] XOR = some S ∧
    compute [] S UNION = some S ∧
    compute [] S XOR = some S ∧
    compute [] S DIFFERENCE = some [] ∧
    compute [] S INTERSECTION = some [] := by
  unfold compute trivialOperation
  by_cases h : S = [] <;> simp [h]

/-- C4: for non-empty inputs whose bounding boxes are disjoint, the trivial case
answers without entering the sweep: UNION and XOR concatenate the two polygons,
INTERSECTION returns the empty polygon and DIFFERENCE returns the subject. -/
theorem compute_disjoint_boxes (S C : Polygon)
    (hS : S ≠ []) (hC : C ≠ [])
    (hbb : doOverlap (polygonBbox S) (polygonBbox C) = false) :
    compute S C UNION = some (S ++ C) ∧
    compute S C XOR = some (S ++ C) ∧
    compute S C INTERSECTION = some [] ∧
    compute S C DIFFERENCE = some S := by
  unfold compute trivialOperation
  simp [hS, hC, hbb]

/-- Witness for compute_disjoint_boxes at two concrete disjoint unit squares. -/
theorem compute_disjoint_boxes_witness :
    sq1 ≠ [] ∧ sq2 ≠ [] ∧
    doOverlap (polygonBbox sq1) (polygonBbox sq2) = false ∧
    compute sq1 sq2 UNION = some (sq1 ++ sq2) ∧
    compute sq1 sq2 XOR = some (sq1 ++ sq2) ∧
    compute sq1 sq2 INTERSECTION = some [] ∧
    compute sq1 sq2 DIFFERENCE = some sq1 := by
  refine ⟨by decide, by decide, by decide, ?_⟩
  have h := compute_disjoint_boxes sq1 sq2 (by decide) (by decide) (by decide)
  exact ⟨h.1, h.2.1, h.2.2.1, h.2.2.2⟩

/-- C2: membership of a left event in the result is decided from its edge kind and
its otherInOut flag exactly as the section 4.6 table states; NON_CONTRIBUTING edges
are never in the result. -/
theorem inResult_characterization (e : SweepEvt) (op : BooleanOpType) :
    inResult e op = true ↔
      (e.type = NORMAL ∧
        ((op = INTERSECTION ∧ e.otherInOut = false) ∨
         (op = UNION ∧ e.otherInOut = true) ∨
         (op = DIFFERENCE ∧ ((e.pol = SUBJECT) ↔ e.otherInOut = true)) ∨
         op = XOR)) ∨
      (e.type = SAME_TRANSITION ∧ (op = INTERSECTION ∨ op = UNION)) ∨
      (e.type = DIFFERENT_TRANSITION ∧ op = DIFFERENCE) := by
  obtain ⟨l, pt, opt, pol, ty, io, oio, pir, irf⟩ := e
  cases ty <;> cases op <;> cases pol <;> cases oio <;> simp [inResult]

/-- C3: computeFields sets inOut and otherInOut from the status predecessor, with the
section 4.6 case split on a missing predecessor, a predecessor of the same polygon
and a predecessor of the other polygon, and sets prevInResult to the predecessor
itself exactly when it exists, is in the result and is not vertical, and to the
prevInResult of the predecessor (or null) otherwise. -/
theorem computeFields_characterization (e p : SweepEvt) (i : Nat) (op : BooleanOpType) :
    (computeFields e none op).inOut = false ∧
    (computeFields e none op).otherInOut = true ∧
    (computeFields e none op).prevInResult = none ∧
    (computeFields e (some (i, p)) op).inOut =
      (if p.pol = e.pol then !p.inOut else !p.otherInOut) ∧
    (computeFields e (some (i, p)) op).otherInOut =
      (if p.pol = e.pol then p.otherInOut else if vertical p then !p.inOut else p.inOut) ∧
    (computeFields e (some (i, p)) op).prevInResult =
      (if inResult p op = true ∧ vertical p = false then some i else p.prevInResult) := by
  unfold computeFields
  by_cases h : p.pol = e.pol <;> simp [h]

/-- C6 counterexample: for two concrete disjoint non-empty squares, UNION lists the
subject contours before the clipping contours, so swapping the arguments changes the
resulting contour sequence and compute is not commutative as stated. -/
theorem compute_not_commutative :
    compute sq1 sq2 UNION ≠ compute sq2 sq1 UNION := by decide

/-- C6 amended: for INTERSECTION, UNION and XOR, compute with swapped arguments
returns the same contours up to the order in which the result lists them. -/
theorem compute_commutative_up_to_order (S C : Polygon) (op : BooleanOpType)
    (h : op ≠ DIFFERENCE) :
    Option.map (fun P => (P : Multiset Contour)) (compute S C op) =
    Option.map (fun P => (P : Multiset Contour)) (compute C S op) := by
  unfold compute trivialOperation
  rw [doOverlap_comm (polygonBbox C) (polygonBbox S)]
  by_cases hS : S = [] <;> by_cases hC : C = [] <;>
    cases op <;> simp_all [or_comm] <;>
    by_cases hov : doOverlap (polygonBbox S) (polygonBbox C) = false <;>
    simp_all [Multiset.coe_add] <;> exact List.perm_append_comm

/-- Witness for compute_commutative_up_to_order at the two concrete squares. -/
theorem compute_commutative_up_to_order_witness :
    UNION ≠ DIFFERENCE ∧
    Option.map (fun P => (P : Multiset Contour)) (compute sq1 sq2 UNION) =
      Option.map (fun P => (P : Multiset Contour)) (compute sq2 sq1 UNION) :=
  ⟨by decide, compute_commutative_up_to_order sq1 sq2 UNION (by decide)⟩

/-- C7: compute is deterministic: two runs on equal subjects, equal clipping polygons
and equal operations return equal results, every contour field included. -/
theorem compute_deterministic (S1 S2 C1 C2 : Polygon) (op1 op2 : BooleanOpType)
    (hS : S1 = S2) (hC : C1 = C2) (hop : op1 = op2) :
    compute S1 C1 op1 = compute S2 C2 op2 := by
  subst hS; subst hC; subst hop; rfl

/-- Witness for compute_deterministic at concrete inputs. -/
theorem compute_deterministic_witness :
    sq1 = sq1 ∧ compute sq1 sq2 UNION = compute sq1 sq2 UNION :=
  ⟨rfl, compute_deterministic sq1 sq1 sq2 sq2 UNION UNION rfl rfl rfl⟩

/-- C9: the reference driver exits with code 1 when fewer than two file arguments are
given; with code 2 when an operation argument is present whose first character is not
I, U, D or X; with code 3 when either polygon file fails to open; and otherwise it
computes the operation and exits with code 0. -/
theorem mainDriver_exit_codes (args : List String) (opens : String → Bool) :
    (args.length < 2 → mainDriver args opens = ⟨1, none⟩) ∧
    (2 ≤ args.length → 2 < args.length → argFirstChar (args.getD 2 "") ∉ opeChars →
      mainDriver args opens = ⟨2, none⟩) ∧
    (2 ≤ args.length → (2 < args.length → argFirstChar (args.getD 2 "") ∈ opeChars) →
      (opens (args.getD 0 "") = false ∨ opens (args.getD 1 "") = false) →
      mainDriver args opens = ⟨3, none⟩) ∧
    (2 ≤ args.length → (2 < args.length → argFirstChar (args.getD 2 "") ∈ opeChars) →
      opens (args.getD 0 "") = true → opens (args.getD 1 "") = true →
      (mainDriver args opens).exitCode = 0 ∧ (mainDriver args opens).ranOp ≠ none) := by
  unfold mainDriver
  split_ifs with h1 h2 h3 h4 <;> simp_all
  obtain ⟨hlt, hnotin⟩ := h2
  have heq : args[2]?.getD "" = args[2] := by
    rw [List.getElem?_eq_getElem hlt]; rfl
  rw [heq] at hnotin
  exact ⟨fun hmem => absurd hmem hnotin, fun hmem => absurd hmem hnotin⟩

/-- Witness for mainDriver_exit_codes on four concrete invocations. -/
theorem mainDriver_exit_codes_witness :
    mainDriver [] (fun _ => true) = ⟨1, none⟩ ∧
    mainDriver ["a", "b", "Zop"] (fun _ => true) = ⟨2, none⟩ ∧
    mainDriver ["a", "b"] (fun _ => false) = ⟨3, none⟩ ∧
    (mainDriver ["a", "b", "Union"] (fun _ => true)).exitCode = 0 := by
  refine ⟨?_, ?_, ?_, ?_⟩
  · exact (mainDriver_exit_codes [] (fun _ => true)).1 (by decide)
  · exact (mainDriver_exit_codes ["a", "b", "Zop"] (fun _ => true)).2.1
      (by decide) (by decide) (by decide)
  · exact (mainDriver_exit_codes ["a", "b"] (fun _ => false)).2.2.1
      (by decide) (by intro h; exact absurd h (by decide)) (Or.inl rfl)
  · exact ((mainDriver_exit_codes ["a", "b", "Union"] (fun _ => true)).2.2.2
      (by decide) (fun _ => by decide) rfl rfl).1

/-- C10: invoked without an operation argument the driver computes INTERSECTION; with
one, only the first character of the argument is examined, and I, U, D and X select
the corresponding operation whatever the remaining characters are. -/
theorem mainDriver_default_and_first_char (args : List String) (opens : String → Bool)
    (h0 : opens (args.getD 0 "") = true) (h1 : opens (args.getD 1 "") = true) :
    (args.length = 2 → mainDriver args opens = ⟨0, some INTERSECTION⟩) ∧
    (2 < args.length →
      (argFirstChar (args.getD 2 "") = 'I' → mainDriver args opens = ⟨0, some INTERSECTION⟩) ∧
      (argFirstChar (args.getD 2 "") = 'U' → mainDriver args opens = ⟨0, some UNION⟩) ∧
      (argFirstChar (args.getD 2 "") = 'D' → mainDriver args opens = ⟨0, some DIFFERENCE⟩) ∧
      (argFirstChar (args.getD 2 "") = 'X' → mainDriver args opens = ⟨0, some XOR⟩)) := by
  constructor
  · intro hlen
    unfold mainDriver
    rw [hlen] at *
    simp_all
  · intro hlen
    refine ⟨?_, ?_, ?_, ?_⟩ <;> intro hc <;> unfold mainDriver <;>
      simp_all [opeChars, argFirstChar] <;> omega

/-- Witness for mainDriver_default_and_first_char: the argument Union selects UNION. -/
theorem mainDriver_first_char_witness :
    ((fun _ => true : String → Bool) ((["a", "b", "Union"].getD 0 "")) = true) ∧
    mainDriver ["a", "b", "Union"] (fun _ => true) = ⟨0, some UNION⟩ :=
  ⟨rfl, ((mainDriver_default_and_first_char ["a", "b", "Union"] (fun _ => true)
      rfl rfl).2 (by decide)).2.1 (by decide)⟩

end Bop
